import Mathlib

/-!
Shallow embedding of the PurePEG price-fetch backend
(`src/backend/index.cjs`, `src/backend/middleware/getStoreLinks.js`,
and the unnamed middleware file defining `getCID`), together with
theorems about the behaviour of its resolution-and-aggregation pipeline.

Asynchronous JavaScript functions are modelled as pure Lean functions
whose external effects (HTTP responses, browser actions, thrown
exceptions) are supplied as explicit parameters; a settled promise is an
`Except` value (`.ok` = fulfilled, `.error` = rejected).
-/

namespace PurePeg

/-- Model of a JavaScript error value as far as this backend inspects it:
the route handler reads `reason.vendorName` and `reason.message`, either
of which may be absent (`undefined`). -/
structure JsError where
  vendorName : Option String
  message : Option String
deriving DecidableEq, Repr

/-- Model of the JavaScript expression `x || d` for `x` a string property
that may be `undefined`: the default is taken when `x` is absent or is the
empty string (both are falsy). -/
def jsOr (x : Option String) (d : String) : String :=
  match x with
  | some s => if s = "" then d else s
  | none => d

/-- Model of JavaScript string interpolation of a possibly-`undefined`
value, as in the template literal `s!\x7berror.message\x7d`:
`undefined` prints as the string "undefined". -/
def jsInterp (x : Option String) : String :=
  match x with
  | some s => s
  | none => "undefined"

/-- A scraped `{quantity, price}` pair (`PriceLine` in the data model). -/
structure PriceLine where
  quantity : String
  price : String
deriving DecidableEq, Repr

/-- The four status values produced by `formatResponse` in
`src/backend/index.cjs`. -/
inductive Status where
  | success
  | error
  | not_found
  | link_only
deriving DecidableEq, Repr

/-- The `data` payload of a standardized response object. -/
structure RespData where
  prices : List PriceLine
  url : Option String
  message : Option String
deriving DecidableEq, Repr

/-- A standardized vendor response object, as built by `formatResponse`. -/
structure VendorResult where
  vendorName : String
  status : Status
  data : RespData
deriving DecidableEq, Repr

/-- `formatResponse(vendorName, status, { prices = [], url = null, message = null })`
from `src/backend/index.cjs`.  Call sites below pass the defaulted fields
explicitly (`[]`, `none`, `none` for an omitted property). -/
def formatResponse (vendorName : String) (status : Status)
    (prices : List PriceLine) (url : Option String) (message : Option String) :
    VendorResult :=
  { vendorName := vendorName, status := status,
    data := { prices := prices, url := url, message := message } }

/-!
## The `getCID` middleware (identifier resolver)

`getCID` makes up to two `axios.get` calls (name lookup, then SMILES
lookup).  Each upstream call either resolves with a body whose
`IdentifierList?.CID` is a possibly-absent list of candidate CIDs, or
throws an error carrying an optional PubChem fault code
(`err.response?.data?.Fault?.Code`) and a message.
-/

/-- Outcome of one `axios.get` against a PubChem `cids` endpoint:
`ok cids` models a 2xx response whose `data.IdentifierList?.CID` is
`cids` (`none` when `IdentifierList` or `CID` is absent); `fault code msg`
models a thrown error with `err.response?.data?.Fault?.Code = code` and
`err.message = msg`. -/
inductive PugResult where
  | ok (cids : Option (List Nat))
  | fault (code : Option String) (message : String)
deriving DecidableEq, Repr

/-- What an Express middleware does: either call `next` with a value
attached to the request, or send a JSON error response
`res.status(status).json({error, details?})`. -/
inductive MiddlewareStep (α : Type) where
  | next (val : α)
  | respond (status : Nat) (error : String) (details : Option String)
deriving DecidableEq, Repr

/-- Observable outcome of a `getCID` invocation: the middleware step
taken, plus whether each of the two network calls was performed. -/
structure GetCIDOutcome where
  step : MiddlewareStep Nat
  nameCalled : Bool
  smilesCalled : Bool
deriving DecidableEq, Repr

/-- The second `try` block of `getCID`: the SMILES fallback lookup.
A non-empty candidate list attaches its first CID; an absent or empty
list is a 404; a thrown error is a 500 carrying `err.message`. -/
def getCIDSmilesStep (smilesResult : PugResult) : MiddlewareStep Nat :=
  match smilesResult with
  | .ok (some (c :: _)) => .next c
  | .ok _ => .respond 404 "No compound found for ID" none
  | .fault _ msg => .respond 500 "Could not get CID for this smiles number" (some msg)

/-- The `getCID` middleware.  The identifier `id` is used only inside the
request URLs; the function performs the name lookup unconditionally, uses
the first CID of a non-empty candidate list, falls through to the SMILES
lookup when the list is absent or empty or when the name lookup threw
with fault code `PUGREST.NotFound`, and otherwise responds 500 with the
upstream message. -/
def getCID (id : String) (nameResult smilesResult : PugResult) : GetCIDOutcome :=
  match nameResult with
  | .ok (some (c :: _)) => ⟨.next c, true, false⟩
  | .ok _ => ⟨getCIDSmilesStep smilesResult, true, true⟩
  | .fault code msg =>
    if code = some "PUGREST.NotFound" then
      ⟨getCIDSmilesStep smilesResult, true, true⟩
    else
      ⟨.respond 500 "Failed to get CID by name" (some msg), true, false⟩

/-!
## The `getStoreLinks` middleware (vendor source directory)
-/

/-- One vendor entry from the PubChem chemical-vendors listing, as read
by the backend (`SourceName`, `SourceRecordURL`). -/
structure StoreVendor where
  SourceName : String
  SourceRecordURL : String
deriving DecidableEq, Repr

/-- One element of `SourceCategories.Categories`; its `Sources` property
may be absent. -/
structure SLCategory where
  Sources : Option (List StoreVendor)
deriving DecidableEq, Repr

/-- The `SourceCategories` object; its `Categories` property may be
absent. -/
structure SLCategories where
  Categories : Option (List SLCategory)
deriving DecidableEq, Repr

/-- The response body of the vendor-listing call; its `SourceCategories`
property may be absent. -/
structure SLData where
  SourceCategories : Option SLCategories
deriving DecidableEq, Repr

/-- Outcome of an `axios.get` call: a resolved response whose `data` may
be nullish, or a thrown error with message `message`. -/
inductive AxiosResult (α : Type) where
  | ok (data : Option α)
  | fault (message : String)
deriving DecidableEq, Repr

/-- JavaScript evaluation of
`response.data?.SourceCategories.Categories[0].Sources`:
a nullish `data` short-circuits the whole chain to `undefined` (`ok none`);
otherwise a missing `SourceCategories`, a missing `Categories`, or an
empty `Categories` array makes the next property access throw a
`TypeError` (`error msg`); otherwise the result is `Categories[0].Sources`,
which may itself be absent. -/
def extractVendors (data : Option SLData) : Except String (Option (List StoreVendor)) :=
  match data with
  | none => .ok none
  | some d =>
    match d.SourceCategories with
    | none => .error "Cannot read properties of undefined (reading Categories)"
    | some sc =>
      match sc.Categories with
      | none => .error "Cannot read properties of undefined (reading 0)"
      | some cats =>
        match cats.head? with
        | none => .error "Cannot read properties of undefined (reading Sources)"
        | some cat => .ok cat.Sources

/-- The `getStoreLinks` middleware: on a resolved upstream response it
evaluates the vendor chain (a thrown `TypeError` is caught by the same
`catch` as a transport failure and becomes a 500); a present non-empty
vendor list is attached to the request, and an absent or empty one is a
404. -/
def getStoreLinks (resp : AxiosResult SLData) : MiddlewareStep (List StoreVendor) :=
  match resp with
  | .fault msg => .respond 500 "Failed to fetch Vendors" (some msg)
  | .ok data =>
    match extractVendors data with
    | .error msg => .respond 500 "Failed to fetch Vendors" (some msg)
    | .ok vendors =>
      match vendors with
      | some (v :: vs) => .next (v :: vs)
      | _ => .respond 404 "Vendors not found for given CAS number" none

/-!
## The vendor capability registry (`VENDOR_CONFIG`)
-/

/-- The `type` field of a registry entry. -/
inductive StrategyType where
  | api
  | crawl
  | link
deriving DecidableEq, Repr

/-- Which handler function a registry entry names. -/
inductive HandlerId where
  | purePegApi
  | crawlableVendor
  | linkOnlyVendor
deriving DecidableEq, Repr

/-- Which Playwright crawl function a `crawl` entry names. -/
inductive CrawlFnId where
  | accela
  | bld
  | broadPharm
deriving DecidableEq, Repr

/-- One entry of `VENDOR_CONFIG` in `src/backend/index.cjs`. -/
structure VendorConfigEntry where
  vendorName : String
  sourceName : String
  type : StrategyType
  handler : HandlerId
  crawlFn : Option CrawlFnId
  searchUrl : Option String
deriving DecidableEq, Repr

/-- The static capability registry, in declaration order. -/
def VENDOR_CONFIG : List VendorConfigEntry :=
  [ { vendorName := "PurePEG", sourceName := "PurePEG",
      type := .api, handler := .purePegApi, crawlFn := none, searchUrl := none },
    { vendorName := "Accela", sourceName := "Accela ChemBio Inc.",
      type := .crawl, handler := .crawlableVendor, crawlFn := some .accela, searchUrl := none },
    { vendorName := "BLD", sourceName := "BLD Pharm",
      type := .crawl, handler := .crawlableVendor, crawlFn := some .bld, searchUrl := none },
    { vendorName := "BroadPharm", sourceName := "BroadPharm",
      type := .crawl, handler := .crawlableVendor, crawlFn := some .broadPharm, searchUrl := none },
    { vendorName := "AA Blocks", sourceName := "AA BLOCKS",
      type := .link, handler := .linkOnlyVendor, crawlFn := none,
      searchUrl := some "https://www.aablocks.com/prod/" },
    { vendorName := "AbaChemScene", sourceName := "AbaChemScene",
      type := .link, handler := .linkOnlyVendor, crawlFn := none, searchUrl := none },
    { vendorName := "Combi-Blocks", sourceName := "Combi-Blocks",
      type := .link, handler := .linkOnlyVendor, crawlFn := none, searchUrl := none } ]

/-!
## Vendor-specific data handlers
-/

/-- One entry of the startup-loaded PurePEG product cache. -/
structure CacheEntry where
  itemName : String
  cas : String
  smiles : String
  productId : String
deriving DecidableEq, Repr

/-- One variation object returned by the WooCommerce API. -/
structure Variation where
  weight : String
  regular_price : String
deriving DecidableEq, Repr

/-- `handlePurePegApi({searchTerm})`: look the search term up in the local
cache by exact equality against `itemName`, `cas` or `smiles`; absent →
`not_found`; otherwise call the WooCommerce variations endpoint for the
cached product id (`wc` models that call), mapping each variation to a
`{quantity := weight, price := regular_price}` line on success and
producing an `error` result when the call throws.  No branch passes a
`url`. -/
def handlePurePegApi (purePEGCache : List CacheEntry)
    (wc : String → Except JsError (List Variation)) (searchTerm : String) :
    VendorResult :=
  match purePEGCache.find? (fun p =>
      p.itemName == searchTerm || p.cas == searchTerm || p.smiles == searchTerm) with
  | none => formatResponse "PurePEG" .not_found [] none
      (some "Item not found in PurePEG database.")
  | some product =>
    match wc product.productId with
    | .ok variations =>
      formatResponse "PurePEG" .success
        (variations.map fun variation =>
          { quantity := variation.weight, price := variation.regular_price })
        none none
    | .error _ => formatResponse "PurePEG" .error [] none
        (some "Failed to fetch prices from WooCommerce API.")

/-- `handleLinkOnlyVendor({config, vendorData, searchTerm})`: a directory
hit yields `link_only` with the directory URL; otherwise a configured
search-URL template yields `link_only` with a synthesized URL; otherwise
`not_found`.  `encodeURIComponent` is passed in as the encoding
function. -/
def handleLinkOnlyVendor (config : VendorConfigEntry)
    (vendorData : Option StoreVendor) (searchTerm : String)
    (encodeURIComponent : String → String) : VendorResult :=
  match vendorData with
  | some vd => formatResponse config.vendorName .link_only [] (some vd.SourceRecordURL)
      (some "Direct link to product page.")
  | none =>
    match config.searchUrl with
    | some searchUrl => formatResponse config.vendorName .link_only []
        (some (searchUrl ++ encodeURIComponent searchTerm))
        (some "Direct link to product search page.")
    | none => formatResponse config.vendorName .not_found [] none
        (some "This vendor does not offer the product.")

/-- `handleCrawlableVendor({config, vendorData})`: `not_found` when the
vendor is absent from the directory; otherwise run the crawl executor on
the directory URL (`crawlAt url` models the settled outcome of
`executeCrawl(crawlFn, url)`).  Completion yields `success` with the
directory URL — with an explanatory message when the price list is
empty — and a thrown error yields `error` with a
`Scraping failed: ...` message. -/
def handleCrawlableVendor (config : VendorConfigEntry)
    (vendorData : Option StoreVendor)
    (crawlAt : String → Except JsError (List PriceLine)) : VendorResult :=
  match vendorData with
  | none => formatResponse config.vendorName .not_found [] none
      (some "This vendor does not offer the product.")
  | some vd =>
    match crawlAt vd.SourceRecordURL with
    | .ok prices =>
      if prices.length = 0 then
        formatResponse config.vendorName .success prices (some vd.SourceRecordURL)
          (some "Scraped successfully, but no pricing info found on page.")
      else
        formatResponse config.vendorName .success prices (some vd.SourceRecordURL) none
    | .error e => formatResponse config.vendorName .error [] (some vd.SourceRecordURL)
        (some ("Scraping failed: " ++ jsInterp e.message))

/-!
## The browser crawl executor (`executeCrawl`)

`executeCrawl` awaits `chromium.launch`, `browser.newContext` and
`context.newPage` before entering a `try`/`catch`/`finally` whose `try`
navigates and runs the crawl function, whose `catch` takes a screenshot
and rethrows, and whose `finally` closes the browser.  The environment
below supplies the outcome of each awaited step.
-/

/-- Decidable equality for settled promise outcomes. -/
instance {ε α : Type} [DecidableEq ε] [DecidableEq α] : DecidableEq (Except ε α) :=
  fun a b =>
    match a, b with
    | .error e, .error f => decidable_of_iff (e = f) (by simp)
    | .ok x, .ok y => decidable_of_iff (x = y) (by simp)
    | .error _, .ok _ => isFalse (by simp)
    | .ok _, .error _ => isFalse (by simp)

/-- Outcomes of the awaited steps inside one `executeCrawl` invocation. -/
structure CrawlEnv where
  launchResult : Except JsError Unit
  newContextResult : Except JsError Unit
  newPageResult : Except JsError Unit
  gotoResult : Except JsError Unit
  crawlFnResult : Except JsError (List PriceLine)
  screenshotResult : Except JsError Unit
deriving DecidableEq, Repr

/-- Observable outcome of one `executeCrawl` invocation: the value or
error the returned promise settles with, whether a browser instance was
launched, whether `browser.close()` ran, and whether a screenshot was
attempted. -/
structure CrawlOutcome where
  result : Except JsError (List PriceLine)
  browserAcquired : Bool
  browserClosed : Bool
  screenshotAttempted : Bool
deriving DecidableEq, Repr

/-- The `catch` block of `executeCrawl`: attempt `page.screenshot` and
then rethrow the original error `e`; when the screenshot itself throws,
its error propagates instead and the `throw err` statement is never
reached.  The `finally` runs in both cases, so the browser is closed. -/
def crawlCatch (e : JsError) (screenshotResult : Except JsError Unit) : CrawlOutcome :=
  match screenshotResult with
  | .ok _ => ⟨.error e, true, true, true⟩
  | .error e2 => ⟨.error e2, true, true, true⟩

/-- `executeCrawl(crawlFunction, url)`.  A failure of `chromium.launch`
propagates with no browser; a failure of `newContext` or `newPage`
propagates after the browser was launched but before the
`try`/`finally` was entered, so `browser.close()` does not run.  Inside
the `try`, `page.goto` and then the crawl function run; any error goes
through the `catch` block and the `finally` closes the browser on every
path. -/
def executeCrawl (env : CrawlEnv) : CrawlOutcome :=
  match env.launchResult with
  | .error e => ⟨.error e, false, false, false⟩
  | .ok _ =>
    match env.newContextResult with
    | .error e => ⟨.error e, true, false, false⟩
    | .ok _ =>
      match env.newPageResult with
      | .error e => ⟨.error e, true, false, false⟩
      | .ok _ =>
        match env.gotoResult with
        | .error e => crawlCatch e env.screenshotResult
        | .ok _ =>
          match env.crawlFnResult with
          | .ok priceArray => ⟨.ok priceArray, true, true, false⟩
          | .error e => crawlCatch e env.screenshotResult

/-!
## The `/prices/:id` route (aggregator fan-out)

After `getCID` and `getStoreLinks` have attached `req.vendors`, the route
maps every registry entry to a handler promise, awaits
`Promise.allSettled`, and converts each settled outcome to a response
item.  A handler's settled outcome is a function of its registry entry,
its directory match and the search term; `run` below stands for that
function, covering every possible behaviour of the handlers. -/

/-- `availableVendors.find(v => v.SourceName === config.sourceName)`. -/
def findVendorData (availableVendors : List StoreVendor)
    (config : VendorConfigEntry) : Option StoreVendor :=
  availableVendors.find? (fun v => v.SourceName == config.sourceName)

/-- The array of handler promises, one per registry entry in declaration
order; each element is the settled outcome of
`config.handler({config, vendorData, searchTerm})`. -/
def promisesFor (run : VendorConfigEntry → Option StoreVendor → String →
      Except JsError VendorResult)
    (searchTerm : String) (availableVendors : List StoreVendor) :
    List (Except JsError VendorResult) :=
  VENDOR_CONFIG.map (fun config =>
    run config (findVendorData availableVendors config) searchTerm)

/-- The `results.map` body of the route: a fulfilled handler value passes
through; a rejected one becomes an error item whose `vendorName` is
`reason.vendorName || "Unknown Vendor"` and whose message is
`reason.message || "An internal error occurred."`. -/
def settleMap (result : Except JsError VendorResult) : VendorResult :=
  match result with
  | .ok value => value
  | .error reason =>
    { vendorName := jsOr reason.vendorName "Unknown Vendor",
      status := .error,
      data := { prices := [], url := none,
                message := some (jsOr reason.message "An internal error occurred.") } }

/-- The JSON array the route sends: one converted settled outcome per
registry entry, in registry order (`Promise.allSettled` resolves with
results in the order of its input array). -/
def pricesRoute (run : VendorConfigEntry → Option StoreVendor → String →
      Except JsError VendorResult)
    (searchTerm : String) (availableVendors : List StoreVendor) :
    List VendorResult :=
  (promisesFor run searchTerm availableVendors).map settleMap

/-- Operational model of `Promise.allSettled`'s collection discipline:
a pre-allocated slot per task, each completion writing its task's settled
outcome into that task's own slot by index; `order` is the order in which
the tasks happen to complete. -/
def collectBySlot {α : Type} (tasks : List α) (order : List Nat) : List (Option α) :=
  order.foldl (fun slots i => slots.set i tasks[i]?) (List.replicate tasks.length none)

/-!
## Concrete fixtures used by counterexamples and witnesses
-/

/-- A handler-outcome function under which every handler fulfils with a
`not_found` result except Accela's, which rejects with a plain error
carrying a message but (like every error thrown by the real handlers) no
`vendorName` property. -/
def rejectingAccelaRun :
    VendorConfigEntry → Option StoreVendor → String → Except JsError VendorResult :=
  fun config _ _ =>
    if config.vendorName = "Accela" then
      .error { vendorName := none, message := some "boom" }
    else
      .ok (formatResponse config.vendorName .not_found [] none none)

/-- A handler-outcome function under which every handler fulfils. -/
def allOkRun :
    VendorConfigEntry → Option StoreVendor → String → Except JsError VendorResult :=
  fun config _ _ => .ok (formatResponse config.vendorName .not_found [] none none)

/-- A crawl environment in which the browser launches but
`browser.newContext` throws. -/
def contextFailEnv : CrawlEnv :=
  { launchResult := .ok (),
    newContextResult := .error { vendorName := none, message := some "browser crashed" },
    newPageResult := .ok (), gotoResult := .ok (),
    crawlFnResult := .ok [], screenshotResult := .ok () }

/-- A crawl environment in which navigation times out and the diagnostic
screenshot itself also fails. -/
def navFailEnv : CrawlEnv :=
  { launchResult := .ok (), newContextResult := .ok (), newPageResult := .ok (),
    gotoResult := .error { vendorName := none, message := some "Timeout 30000ms exceeded" },
    crawlFnResult := .ok [],
    screenshotResult := .error { vendorName := none, message := some "screenshot failed" } }

/-- The Accela registry entry (index 1 of `VENDOR_CONFIG`). -/
def accelaConfig : VendorConfigEntry :=
  { vendorName := "Accela", sourceName := "Accela ChemBio Inc.",
    type := .crawl, handler := .crawlableVendor, crawlFn := some .accela,
    searchUrl := none }

/-- A directory entry for Accela. -/
def accelaVendorData : StoreVendor :=
  { SourceName := "Accela ChemBio Inc.",
    SourceRecordURL := "https://www.accelachem.com/record/1" }

/-- A one-entry PurePEG cache. -/
def purePegCacheFixture : List CacheEntry :=
  [ { itemName := "mPEG4-OH", cas := "9004-74-4", smiles := "COCCOCCOCCOCCO",
      productId := "101" } ]

/-- A WooCommerce call that succeeds with one variation. -/
def wooOkFixture : String → Except JsError (List Variation) :=
  fun _ => .ok [ { weight := "1g", regular_price := "50.00" } ]

/-!
## Theorems
-/

/-- The i-th response element is the converted settled outcome of the
i-th registry entry's handler. -/
theorem pricesRoute_getElem? (run : VendorConfigEntry → Option StoreVendor → String →
      Except JsError VendorResult)
    (searchTerm : String) (availableVendors : List StoreVendor)
    (i : Nat) (hi : i < VENDOR_CONFIG.length) :
    (pricesRoute run searchTerm availableVendors)[i]? =
      some (settleMap (run (VENDOR_CONFIG.get ⟨i, hi⟩)
        (findVendorData availableVendors (VENDOR_CONFIG.get ⟨i, hi⟩)) searchTerm)) := by
  simp [pricesRoute, promisesFor, List.getElem?_map, List.getElem?_eq_getElem hi]

/-- Folding slot writes over any completion order: a slot holds its own
task's outcome once its index has been processed, and is untouched
otherwise. -/
theorem foldl_set_getElem? {α : Type} (tasks : List α) (order : List Nat) :
    ∀ (slots : List (Option α)) (j : Nat), j < slots.length →
      (order.foldl (fun s i => s.set i tasks[i]?) slots)[j]? =
        if j ∈ order then some tasks[j]? else slots[j]? := by
  induction order with
  | nil => intro slots j hj; simp
  | cons i rest ih =>
    intro slots j hj
    rw [List.foldl_cons, ih (slots.set i tasks[i]?) j (by simpa using hj)]
    by_cases hmem : j ∈ rest
    · simp [hmem]
    · by_cases hij : i = j
      · subst hij
        simp [hmem, List.getElem?_set, hj]
      · simp [hmem, List.getElem?_set, hij, Ne.symm hij]

/-- Slot collection preserves the slot count. -/
theorem collectBySlot_length {α : Type} (tasks : List α) (order : List Nat) :
    (collectBySlot tasks order).length = tasks.length := by
  rw [collectBySlot]
  have h : ∀ (o : List Nat) (slots : List (Option α)),
      (o.foldl (fun s i => s.set i tasks[i]?) slots).length = slots.length := by
    intro o
    induction o with
    | nil => intro slots; rfl
    | cons i rest ih => intro slots; rw [List.foldl_cons, ih]; simp
  rw [h, List.length_replicate]

/-- Collecting the settled task outcomes into per-task slots in any
completion order that eventually completes every task reproduces the
tasks in their original declaration order. -/
theorem collectBySlot_perm {α : Type} (tasks : List α) (order : List Nat)
    (hperm : order.Perm (List.range tasks.length)) :
    collectBySlot tasks order = tasks.map some := by
  apply List.ext_getElem?
  intro n
  by_cases hn : n < tasks.length
  · rw [collectBySlot,
      foldl_set_getElem? tasks order (List.replicate tasks.length none) n (by simpa using hn)]
    have hmem : n ∈ order := hperm.mem_iff.2 (List.mem_range.2 hn)
    simp [hmem, List.getElem?_eq_getElem hn]
  · rw [List.getElem?_eq_none (le_of_not_lt (by simpa [collectBySlot_length] using hn)),
      List.getElem?_eq_none (le_of_not_lt (by simpa using hn))]

/-- Claim C1 counterexample: when Accela's handler rejects with a plain
error (message "boom", no `vendorName` property — as with any error the
real handlers can throw), the response contains no entry whose
`vendorName` is "Accela": the slot for Accela (index 1) instead carries
`vendorName = "Unknown Vendor"`.  So the error result does not carry the
vendor name, contrary to the claim. -/
theorem claim_C1_counterexample :
    ((pricesRoute rejectingAccelaRun "aspirin" []).all
        (fun r => r.vendorName != "Accela")) = true
    ∧ (pricesRoute rejectingAccelaRun "aspirin" [])[1]? =
        some { vendorName := "Unknown Vendor", status := .error,
               data := { prices := [], url := none, message := some "boom" } } := by
  constructor
  · decide
  · decide

/-- Claim C1 (amended): if the handler of the i-th registry vendor
rejects with reason `reason`, the overall response is still produced
(length 7) and the slot at index i holds a `status = error` result whose
message is `reason.message` (defaulted to "An internal error occurred."
when absent or empty) and whose `vendorName` is `reason.vendorName` when
present and non-empty, and "Unknown Vendor" otherwise — not necessarily
the vendor's registry name; every other slot is exactly what the
unchanged sibling handlers produce. -/
theorem claim_C1_theorem
    (run run2 : VendorConfigEntry → Option StoreVendor → String → Except JsError VendorResult)
    (searchTerm : String) (availableVendors : List StoreVendor)
    (i : Nat) (hi : i < VENDOR_CONFIG.length) (reason : JsError)
    (hrej : run2 (VENDOR_CONFIG.get ⟨i, hi⟩)
        (findVendorData availableVendors (VENDOR_CONFIG.get ⟨i, hi⟩)) searchTerm
        = .error reason)
    (hagree : ∀ j (hj : j < VENDOR_CONFIG.length), j ≠ i →
        run2 (VENDOR_CONFIG.get ⟨j, hj⟩)
            (findVendorData availableVendors (VENDOR_CONFIG.get ⟨j, hj⟩)) searchTerm
          = run (VENDOR_CONFIG.get ⟨j, hj⟩)
            (findVendorData availableVendors (VENDOR_CONFIG.get ⟨j, hj⟩)) searchTerm) :
    (pricesRoute run2 searchTerm availableVendors)[i]? =
        some { vendorName := jsOr reason.vendorName "Unknown Vendor",
               status := .error,
               data := { prices := [], url := none,
                         message := some (jsOr reason.message "An internal error occurred.") } }
    ∧ (pricesRoute run2 searchTerm availableVendors).length = VENDOR_CONFIG.length
    ∧ ∀ j, j ≠ i →
        (pricesRoute run2 searchTerm availableVendors)[j]? =
          (pricesRoute run searchTerm availableVendors)[j]? := by
  refine ⟨?_, ?_, ?_⟩
  · rw [pricesRoute_getElem? run2 searchTerm availableVendors i hi, hrej]
    rfl
  · simp [pricesRoute, promisesFor]
  · intro j hj
    by_cases hlt : j < VENDOR_CONFIG.length
    · rw [pricesRoute_getElem? run2 searchTerm availableVendors j hlt,
        pricesRoute_getElem? run searchTerm availableVendors j hlt,
        hagree j hlt hj]
    · have h2 : (pricesRoute run2 searchTerm availableVendors).length ≤ j := by
        simpa [pricesRoute, promisesFor] using le_of_not_lt hlt
      have h1 : (pricesRoute run searchTerm availableVendors).length ≤ j := by
        simpa [pricesRoute, promisesFor] using le_of_not_lt hlt
      rw [List.getElem?_eq_none h2, List.getElem?_eq_none h1]

/-- Claim C1 witness: with every handler fulfilling except Accela's
(index 1), which rejects with message "boom" and no vendor name, the
response keeps length 7, slot 1 is the converted error entry, and slot 0
is unchanged relative to the all-fulfilled run. -/
theorem claim_C1_witness :
    (pricesRoute rejectingAccelaRun "aspirin" [])[1]? =
        some { vendorName := jsOr none "Unknown Vendor", status := .error,
               data := { prices := [], url := none,
                         message := some (jsOr (some "boom") "An internal error occurred.") } }
    ∧ (pricesRoute rejectingAccelaRun "aspirin" []).length = VENDOR_CONFIG.length
    ∧ (pricesRoute rejectingAccelaRun "aspirin" [])[0]? =
        (pricesRoute allOkRun "aspirin" [])[0]? := by
  have h := claim_C1_theorem allOkRun rejectingAccelaRun "aspirin" [] 1 (by decide)
    { vendorName := none, message := some "boom" } (by decide) (by decide)
  exact ⟨h.1, h.2.1, h.2.2 0 (by decide)⟩

/-- Claim C2: for every request that reaches the fan-out stage, the
response array has exactly one entry per registry vendor: its length
equals the registry size, which is 7, regardless of the directory
contents and of each handler's outcome. -/
theorem claim_C2
    (run : VendorConfigEntry → Option StoreVendor → String → Except JsError VendorResult)
    (searchTerm : String) (availableVendors : List StoreVendor) :
    (pricesRoute run searchTerm availableVendors).length = VENDOR_CONFIG.length
    ∧ VENDOR_CONFIG.length = 7 := by
  constructor
  · simp [pricesRoute, promisesFor]
  · rfl

/-- Claim C3: for every completion order of the concurrent vendor tasks
(any permutation of the task indices), collecting the settled outcomes by
per-task slot reproduces the tasks in registry declaration order, and the
i-th element of the response array is the result produced for the i-th
registry entry. -/
theorem claim_C3
    (run : VendorConfigEntry → Option StoreVendor → String → Except JsError VendorResult)
    (searchTerm : String) (availableVendors : List StoreVendor) (order : List Nat)
    (hperm : order.Perm (List.range (promisesFor run searchTerm availableVendors).length)) :
    collectBySlot (promisesFor run searchTerm availableVendors) order
        = (promisesFor run searchTerm availableVendors).map some
    ∧ ∀ i (hi : i < VENDOR_CONFIG.length),
        (pricesRoute run searchTerm availableVendors)[i]? =
          some (settleMap (run (VENDOR_CONFIG.get ⟨i, hi⟩)
            (findVendorData availableVendors (VENDOR_CONFIG.get ⟨i, hi⟩)) searchTerm)) := by
  constructor
  · exact collectBySlot_perm _ order hperm
  · intro i hi
    exact pricesRoute_getElem? run searchTerm availableVendors i hi

/-- Claim C3 witness: with the seven tasks completing in the scrambled
order 3, 0, 6, 1, 5, 2, 4, slot collection still yields declaration
order, and slot 1 is Accela's own handler outcome. -/
theorem claim_C3_witness :
    ([3, 0, 6, 1, 5, 2, 4] : List Nat).Perm
        (List.range (promisesFor allOkRun "aspirin" []).length)
    ∧ (pricesRoute allOkRun "aspirin" [])[1]? =
        some (settleMap (allOkRun (VENDOR_CONFIG.get ⟨1, by decide⟩)
          (findVendorData [] (VENDOR_CONFIG.get ⟨1, by decide⟩)) "aspirin")) := by
  refine ⟨by decide, ?_⟩
  exact (claim_C3 allOkRun "aspirin" [] [3, 0, 6, 1, 5, 2, 4] (by decide)).2 1 (by decide)

/-- Claim C4: the SMILES fallback lookup runs if and only if the name
lookup reported a definitive "not found" (an absent or empty candidate
list, or the `PUGREST.NotFound` fault code); any other name-lookup fault
responds 500 immediately, carrying the upstream message, without calling
the fallback; and whichever lookup succeeds, only the first candidate CID
is used. -/
theorem claim_C4 (id : String) (nameResult smilesResult : PugResult) :
    ((getCID id nameResult smilesResult).smilesCalled = true ↔
        nameResult = .ok none ∨ nameResult = .ok (some []) ∨
          ∃ msg, nameResult = .fault (some "PUGREST.NotFound") msg)
    ∧ (∀ code msg, nameResult = .fault code msg → code ≠ some "PUGREST.NotFound" →
        (getCID id nameResult smilesResult).step =
            .respond 500 "Failed to get CID by name" (some msg)
        ∧ (getCID id nameResult smilesResult).smilesCalled = false)
    ∧ (∀ c cs, nameResult = .ok (some (c :: cs)) →
        (getCID id nameResult smilesResult).step = .next c)
    ∧ (∀ c cs, (getCID id nameResult smilesResult).smilesCalled = true →
        smilesResult = .ok (some (c :: cs)) →
        (getCID id nameResult smilesResult).step = .next c) := by
  cases nameResult with
  | ok cids =>
    match cids with
    | none =>
      simp only [getCID, getCIDSmilesStep]
      refine ⟨by simp, by simp, by simp, ?_⟩
      intro c cs hc h
      subst h
      rfl
    | some [] =>
      simp only [getCID, getCIDSmilesStep]
      refine ⟨by simp, by simp, by simp, ?_⟩
      intro c cs hc h
      subst h
      rfl
    | some (c :: cs) => simp [getCID]
  | fault code msg =>
    by_cases hc : code = some "PUGREST.NotFound"
    · subst hc
      simp only [getCID, getCIDSmilesStep, if_pos rfl]
      refine ⟨by simp, by simp, by simp, ?_⟩
      intro c cs hsm h
      subst h
      rfl
    · simp [getCID, hc]

/-- Claim C4 witness: a name-lookup fault with a non-NotFound code stops
the resolver with a 500 carrying the upstream message and never calls the
SMILES fallback; a name lookup returning the candidates [2244, 31200]
resolves to 2244. -/
theorem claim_C4_witness :
    (getCID "aspirin" (PugResult.fault (some "PUGREST.ServerBusy") "upstream 500")
        (PugResult.ok none)).smilesCalled = false
    ∧ (getCID "aspirin" (PugResult.fault (some "PUGREST.ServerBusy") "upstream 500")
        (PugResult.ok none)).step =
        .respond 500 "Failed to get CID by name" (some "upstream 500")
    ∧ (getCID "aspirin" (PugResult.ok (some [2244, 31200]))
        (PugResult.ok none)).step = .next 2244 := by
  have h1 := (claim_C4 "aspirin" (PugResult.fault (some "PUGREST.ServerBusy") "upstream 500")
    (PugResult.ok none)).2.1 (some "PUGREST.ServerBusy") "upstream 500" rfl (by decide)
  have h2 := (claim_C4 "aspirin" (PugResult.ok (some [2244, 31200]))
    (PugResult.ok none)).2.2.1 2244 [31200] rfl
  exact ⟨h1.2, h1.1, h2⟩

/-- Claim C5 counterexample: a blank identifier (a single space) does not
fail fast before network I/O — `getCID` performs the name-lookup network
call for it, whatever the upstream answers, and no validation response
exists. -/
theorem claim_C5_counterexample :
    (getCID " " (PugResult.ok none) (PugResult.ok none)).nameCalled = true := by
  decide

/-- Claim C5 (amended): the resolver performs no blank-identifier
validation at all: for every identifier — blank or not — the name-lookup
network call is always made before anything else can happen. -/
theorem claim_C5_theorem (id : String) (nameResult smilesResult : PugResult) :
    (getCID id nameResult smilesResult).nameCalled = true := by
  cases nameResult with
  | ok cids =>
    match cids with
    | none => rfl
    | some [] => rfl
    | some (c :: cs) => rfl
  | fault code msg =>
    by_cases hc : code = some "PUGREST.NotFound" <;> simp [getCID, hc]

/-- Claim C6 counterexample: when the browser launches but
`browser.newContext` throws, the exception escapes before the
`try`/`finally` is entered, so an acquired browser session is never
closed — an invocation that leaks a session. -/
theorem claim_C6_counterexample :
    (executeCrawl contextFailEnv).browserAcquired = true
    ∧ (executeCrawl contextFailEnv).browserClosed = false := by
  decide

/-- Claim C6 (amended): the browser is closed exactly when launch,
context creation and page creation all succeed; on those invocations
every exit path — successful extraction, extractor failure, navigation
timeout, even a failing diagnostic screenshot — runs `browser.close()`;
but when `newContext` or `newPage` throws after a successful launch, the
acquired session is not released. -/
theorem claim_C6_theorem (env : CrawlEnv) :
    (executeCrawl env).browserClosed = true ↔
      env.launchResult.isOk = true ∧ env.newContextResult.isOk = true
        ∧ env.newPageResult.isOk = true := by
  obtain ⟨l, c, p, g, f, s⟩ := env
  cases l <;> cases c <;> cases p <;> cases g <;> cases f <;> cases s <;>
    simp [executeCrawl, crawlCatch, Except.isOk, Except.toBool]

/-- Claim C7 counterexample: navigation fails with a timeout error, the
diagnostic screenshot is attempted but itself fails — and the error the
caller receives is the screenshot error, not the original navigation
error: the screenshot failure masks the crawl failure. -/
theorem claim_C7_counterexample :
    (executeCrawl navFailEnv).screenshotAttempted = true
    ∧ (executeCrawl navFailEnv).result =
        .error { vendorName := none, message := some "screenshot failed" }
    ∧ (executeCrawl navFailEnv).result ≠
        .error { vendorName := none, message := some "Timeout 30000ms exceeded" } := by
  decide

/-- Claim C7 (amended): on any invocation whose session setup succeeds
and whose navigation or extraction fails with error `e`, a screenshot is
attempted and the browser is still closed; the original error `e` is
propagated when the screenshot succeeds, but when the screenshot itself
fails, the screenshot error propagates instead of `e`. -/
theorem claim_C7_theorem (env : CrawlEnv) (e : JsError)
    (hl : env.launchResult = .ok ()) (hc : env.newContextResult = .ok ())
    (hp : env.newPageResult = .ok ())
    (hfail : env.gotoResult = .error e ∨
      (env.gotoResult = .ok () ∧ env.crawlFnResult = .error e)) :
    (executeCrawl env).screenshotAttempted = true
    ∧ (executeCrawl env).browserClosed = true
    ∧ (executeCrawl env).result =
        (match env.screenshotResult with
          | .ok _ => .error e
          | .error e2 => .error e2) := by
  obtain ⟨l, c, p, g, f, s⟩ := env
  simp only at hl hc hp hfail
  subst hl hc hp
  rcases hfail with hg | ⟨hg, hf⟩
  · subst hg
    cases s <;> simp [executeCrawl, crawlCatch]
  · subst hg
    subst hf
    cases s <;> simp [executeCrawl, crawlCatch]

/-- Claim C7 witness: in the environment where navigation times out and
the screenshot also fails, the screenshot was attempted, the browser was
closed, and the propagated error is the screenshot's. -/
theorem claim_C7_witness :
    (executeCrawl navFailEnv).screenshotAttempted = true
    ∧ (executeCrawl navFailEnv).browserClosed = true
    ∧ (executeCrawl navFailEnv).result =
        (match navFailEnv.screenshotResult with
          | .ok _ => .error { vendorName := none, message := some "Timeout 30000ms exceeded" }
          | .error e2 => .error e2) :=
  claim_C7_theorem navFailEnv
    { vendorName := none, message := some "Timeout 30000ms exceeded" }
    rfl rfl rfl (Or.inl rfl)

/-- Claim C8 counterexample: an upstream response that succeeds with a
body lacking `Categories` under `SourceCategories` has no vendor list at
all, yet `getStoreLinks` reports the 500 transport-style error (the
`TypeError` is caught by the same `catch`), not the 404 not-found
outcome. -/
theorem claim_C8_counterexample :
    getStoreLinks (AxiosResult.ok (some { SourceCategories := some { Categories := none } })) =
        .respond 500 "Failed to fetch Vendors"
          (some "Cannot read properties of undefined (reading 0)")
    ∧ getStoreLinks (AxiosResult.ok (some { SourceCategories := some { Categories := none } })) ≠
        .respond 404 "Vendors not found for given CAS number" none := by
  decide

/-- Claim C8 (amended): `getStoreLinks` responds 404 exactly when the
upstream call succeeds and the vendor-chain evaluation yields an absent
or empty `Sources` list without throwing (a nullish body, or
`Categories[0]` present with `Sources` absent or empty); it responds 500
both for transport failures and when the body is present but malformed
above the list (`SourceCategories` absent, `Categories` absent, or
`Categories` empty), so a missing vendor list can surface as the 500
error; and it forwards exactly the non-empty extracted lists. -/
theorem claim_C8_theorem (resp : AxiosResult SLData) :
    ((∃ details, getStoreLinks resp =
          .respond 500 "Failed to fetch Vendors" (some details)) ↔
        (∃ msg, resp = .fault msg) ∨
          ∃ d, resp = .ok d ∧ ∃ msg, extractVendors d = .error msg)
    ∧ (getStoreLinks resp = .respond 404 "Vendors not found for given CAS number" none ↔
        ∃ d, resp = .ok d ∧
          (extractVendors d = .ok none ∨ extractVendors d = .ok (some [])))
    ∧ (∀ v vs, getStoreLinks resp = .next (v :: vs) ↔
        ∃ d, resp = .ok d ∧ extractVendors d = .ok (some (v :: vs))) := by
  cases resp with
  | fault msg => simp [getStoreLinks]
  | ok data =>
    rcases hev : extractVendors data with msg | vendors
    · simp [getStoreLinks, hev]
    · match vendors with
      | none => simp [getStoreLinks, hev]
      | some [] => simp [getStoreLinks, hev]
      | some (v :: vs) => simp [getStoreLinks, hev]

/-- Claim C8 witness: a transport failure produces the 500 response with
its message as details. -/
theorem claim_C8_witness :
    ∃ details, getStoreLinks (AxiosResult.fault "socket hang up") =
      .respond 500 "Failed to fetch Vendors" (some details) :=
  (claim_C8_theorem (AxiosResult.fault "socket hang up")).1.2
    (Or.inl ⟨"socket hang up", rfl⟩)

/-- Claim C9: for a crawl-strategy vendor, absence from the directory
gives `not_found`; a completing crawl gives `success` with the directory
URL, adding an explanatory message when the extracted price list is
empty; a throwing crawl gives `error` with a message; and `success` is a
status distinct from both `error` and `not_found`. -/
theorem claim_C9 (config : VendorConfigEntry) (v : StoreVendor)
    (crawlAt : String → Except JsError (List PriceLine))
    (prices : List PriceLine) (e : JsError) :
    handleCrawlableVendor config none crawlAt =
        formatResponse config.vendorName .not_found [] none
          (some "This vendor does not offer the product.")
    ∧ (crawlAt v.SourceRecordURL = .ok prices →
        (handleCrawlableVendor config (some v) crawlAt).status = .success
        ∧ (handleCrawlableVendor config (some v) crawlAt).data.url =
            some v.SourceRecordURL
        ∧ (handleCrawlableVendor config (some v) crawlAt).data.prices = prices
        ∧ (prices = [] →
            (handleCrawlableVendor config (some v) crawlAt).data.message =
              some "Scraped successfully, but no pricing info found on page."))
    ∧ (crawlAt v.SourceRecordURL = .error e →
        (handleCrawlableVendor config (some v) crawlAt).status = .error
        ∧ (handleCrawlableVendor config (some v) crawlAt).data.message =
            some ("Scraping failed: " ++ jsInterp e.message))
    ∧ (Status.success ≠ Status.error ∧ Status.success ≠ Status.not_found
        ∧ Status.error ≠ Status.not_found) := by
  refine ⟨rfl, ?_, ?_, by simp, by simp, by simp⟩
  · intro hok
    match prices with
    | [] => simp [handleCrawlableVendor, hok, formatResponse]
    | p :: ps => simp [handleCrawlableVendor, hok, formatResponse]
  · intro herr
    simp [handleCrawlableVendor, herr, formatResponse]

/-- Claim C9 witness: with Accela's registry entry, a missing directory
entry yields `not_found`; a crawl completing with no rows yields
`success` with the directory URL and the explanatory message; a crawl
throwing yields `error`. -/
theorem claim_C9_witness :
    handleCrawlableVendor accelaConfig none (fun _ => .ok []) =
        formatResponse "Accela" .not_found [] none
          (some "This vendor does not offer the product.")
    ∧ (handleCrawlableVendor accelaConfig (some accelaVendorData)
        (fun _ => .ok [])).status = .success
    ∧ (handleCrawlableVendor accelaConfig (some accelaVendorData)
        (fun _ => .ok [])).data.message =
        some "Scraped successfully, but no pricing info found on page."
    ∧ (handleCrawlableVendor accelaConfig (some accelaVendorData)
        (fun _ => .error { vendorName := none, message := some "timeout" })).status =
        .error := by
  have hok := claim_C9 accelaConfig accelaVendorData (fun _ => .ok [])
    [] { vendorName := none, message := some "timeout" }
  have herr := claim_C9 accelaConfig accelaVendorData
    (fun _ => .error { vendorName := none, message := some "timeout" })
    [] { vendorName := none, message := some "timeout" }
  exact ⟨hok.1, (hok.2.1 rfl).1, (hok.2.1 rfl).2.2.2 rfl, (herr.2.2.1 rfl).1⟩

/-- Claim C10: the PurePEG api handler's result carries `url = none` on
every path — success included — and its catalog lookup hits only entries
one of whose `itemName`, `cas` or `smiles` is exactly the search term
(an all-misses cache forces `not_found`). -/
theorem claim_C10 (purePEGCache : List CacheEntry)
    (wc : String → Except JsError (List Variation)) (searchTerm : String) :
    (handlePurePegApi purePEGCache wc searchTerm).data.url = none
    ∧ ((handlePurePegApi purePEGCache wc searchTerm).status ≠ .not_found →
        ∃ p ∈ purePEGCache,
          p.itemName = searchTerm ∨ p.cas = searchTerm ∨ p.smiles = searchTerm)
    ∧ ((∀ p ∈ purePEGCache,
          p.itemName ≠ searchTerm ∧ p.cas ≠ searchTerm ∧ p.smiles ≠ searchTerm) →
        handlePurePegApi purePEGCache wc searchTerm =
          formatResponse "PurePEG" .not_found [] none
            (some "Item not found in PurePEG database.")) := by
  rcases hf : purePEGCache.find? (fun p =>
      p.itemName == searchTerm || p.cas == searchTerm || p.smiles == searchTerm)
    with _ | p
  · refine ⟨?_, ?_, ?_⟩
    · simp [handlePurePegApi, hf, formatResponse]
    · intro hstat
      exact absurd (by simp [handlePurePegApi, hf, formatResponse]) hstat
    · intro _
      simp [handlePurePegApi, hf]
  · have hpred := List.find?_some hf
    have hmem := List.mem_of_find?_eq_some hf
    simp only [Bool.or_eq_true, beq_iff_eq] at hpred
    refine ⟨?_, fun _ => ⟨p, hmem, by tauto⟩, ?_⟩
    · rcases hwc : wc p.productId with e | vars <;>
        simp [handlePurePegApi, hf, hwc, formatResponse]
    · intro hall
      rcases hpred with (h | h) | h <;>
        exact absurd h (by have := hall p hmem; tauto)

/-- Claim C10 witness: on a cache hit by CAS number with a succeeding
WooCommerce call, the result still has no URL, and the hit is by exact
string equality. -/
theorem claim_C10_witness :
    (handlePurePegApi purePegCacheFixture wooOkFixture "9004-74-4").data.url = none
    ∧ ∃ p ∈ purePegCacheFixture,
        p.itemName = "9004-74-4" ∨ p.cas = "9004-74-4" ∨ p.smiles = "9004-74-4" := by
  have h := claim_C10 purePegCacheFixture wooOkFixture "9004-74-4"
  exact ⟨h.1, h.2.1 (by decide)⟩

end PurePeg
